import Mathlib

/-!
Shallow embedding of the Black Box puzzle core (src/blackbox.c) and proofs
about its coordinate mapper, ray tracer, consistency checker and move state
machine.

Modelling conventions:
* C machine integers are modelled as `Int` (signed `int` fields and local
  variables) and `Nat` (`unsigned int` cell/exit values).  `LASER_EMPTY`,
  which the source writes as `(~0)` stored in an `unsigned int`, is the
  concrete value `2^32 - 1`.
* The `grid` array of size `(w+2)*(h+2)` is modelled as a total function
  from the flat index to the stored value; `GRID(s,x,y)` computes the flat
  index exactly as the source macro does, `(y)*((s)->h+2) + (x)` — note the
  source uses the `h+2` stride for rows.  The `exits` array is likewise a
  total function from the laser index.
* `assert(...)` failures and unbounded loops abort the program, so every
  operation that can assert or loop returns `Option`; `none` means the C
  program would have aborted (or, for the ray loop, that the supplied fuel
  ran out).
* `v & ~MASK` on an `unsigned int` is modelled by `andNot v MASK`, defined
  as `v ^^^ (v &&& MASK)`: the bits of `v &&& MASK` are a subset of the
  bits of `v`, so the xor removes exactly the masked bits, which agrees
  with the C expression on every value an `unsigned int` can hold.
* Move strings are modelled after `sscanf` parsing: each command of the
  move vocabulary becomes a constructor of `Move` carrying the parsed
  integers (a failed `%d` conversion leaves the C locals at their
  initialised value `-1`, which is representable by passing `-1`).
-/

namespace Blackbox

/-- BALL_CORRECT flag (0x01). -/
def BALL_CORRECT : Nat := 1
/-- BALL_GUESS flag (0x02). -/
def BALL_GUESS : Nat := 2
/-- BALL_LOCK flag (0x04). -/
def BALL_LOCK : Nat := 4
/-- LASER_OMITTED flag (0x0800). -/
def LASER_OMITTED : Nat := 2048
/-- LASER_REFLECT marker (0x1000). -/
def LASER_REFLECT : Nat := 4096
/-- LASER_HIT marker (0x2000). -/
def LASER_HIT : Nat := 8192
/-- LASER_WRONG flag (0x4000). -/
def LASER_WRONG : Nat := 16384
/-- LASER_EMPTY, the source's `(~0)` as a 32-bit unsigned value. -/
def LASER_EMPTY : Nat := 4294967295

/-- Single-point update of a total function modelling an array write. -/
def updf (f : Int → Nat) (i : Int) (v : Nat) : Int → Nat :=
  fun j => if j = i then v else f j

/-- Bitwise `v & ~m` on unsigned values, written without a complement:
the bits of `v &&& m` are a subset of those of `v`, so xoring them away
clears exactly the bits of `m`. -/
def andNot (v m : Nat) : Nat := v ^^^ (v &&& m)

/-- The game state, mirroring `struct game_state` of src/blackbox.c. -/
structure GameState where
  w : Int
  h : Int
  minballs : Int
  maxballs : Int
  nballs : Int
  nlasers : Int
  grid : Int → Nat
  exits : Int → Nat
  done : Int
  laserno : Int
  nguesses : Int
  reveal : Int
  nright : Nat
  nwrong : Nat
  nmissed : Nat

/-- Flat index of the `GRID(s,x,y)` macro: `(y)*((s)->h+2) + (x)`.
The stride is `h+2`, exactly as in the source. -/
def flatIdx (h x y : Int) : Int := y * (h + 2) + x

/-- GRID(s,x,y) read. -/
def GRID (s : GameState) (x y : Int) : Nat := s.grid (flatIdx s.h x y)

/-- Directions; the numbers match the array indexes of `offsets`. -/
def DIR_UP : Nat := 0
/-- DIR_RIGHT. -/
def DIR_RIGHT : Nat := 1
/-- DIR_DOWN. -/
def DIR_DOWN : Nat := 2
/-- DIR_LEFT. -/
def DIR_LEFT : Nat := 3

/-- The `offsets` table of src/blackbox.c. -/
def offsets : Nat → Int × Int
  | 0 => (0, -1)
  | 1 => (1, 0)
  | 2 => (0, 1)
  | _ => (-1, 0)

/-- The OFFSET macro: normalise the direction into `[0,4)` (the C macro
adds 4 while negative, then reduces mod 4, which is the Euclidean mod)
and step by the corresponding offset. -/
def offsetPt (x y : Int) (o : Int) : Int × Int :=
  let i := (o % 4).toNat
  (x + (offsets i).1, y + (offsets i).2)

/-- The three look directions of `isball`. -/
inductive Look
  | left
  | forward
  | right
deriving DecidableEq

/-- `isball` of src/blackbox.c.  Note the source's bounds check compares
`gx` against `state->h` and `gy` against `state->w` (swapped); this is
embedded exactly as written. -/
def isball (s : GameState) (gx gy : Int) (direction : Nat) (lookwhere : Look) : Bool :=
  let p := offsetPt gx gy (direction : Int)
  let q := match lookwhere with
    | Look.left => offsetPt p.1 p.2 ((direction : Int) - 1)
    | Look.right => offsetPt p.1 p.2 ((direction : Int) + 1)
    | Look.forward => p
  if q.1 < 1 ∨ q.2 < 1 ∨ q.1 > s.h ∨ q.2 > s.w then false
  else decide (GRID s q.1 q.2 &&& BALL_CORRECT ≠ 0)

/-- `range2grid` of src/blackbox.c: perimeter index to grid cell and inward
direction; `none` is the source's `return 0`.  It reads only `w` and `h`
from the state, which are passed explicitly. -/
def range2grid (w h rangeno : Int) : Option (Int × Int × Nat) :=
  if rangeno < 0 then none
  else if rangeno < w then
    some (rangeno + 1, 0, DIR_DOWN)
  else if rangeno - w < h then
    some (w + 1, (rangeno - w) + 1, DIR_LEFT)
  else if rangeno - w - h < w then
    some (w - (rangeno - w - h), h + 1, DIR_UP)
  else if rangeno - w - h - w < h then
    some (0, h - (rangeno - w - h - w), DIR_RIGHT)
  else none

/-- `grid2range` of src/blackbox.c: grid cell to perimeter index; `none` is
the source's `return 0`.  The source's outside-grid test compares `x`
against `y1 = h+1` (not `x1 = w+1`); this is embedded exactly as written. -/
def grid2range (w h x y : Int) : Option Int :=
  let x1 := w + 1
  let y1 := h + 1
  if x > 0 ∧ x < x1 ∧ y > 0 ∧ y < y1 then none
  else if x < 0 ∨ x > y1 ∨ y < 0 ∨ y > y1 then none
  else if (x = 0 ∨ x = x1) ∧ (y = 0 ∨ y = y1) then none
  else if y = 0 then some (x - 1)
  else if x = x1 then some (y - 1 + w)
  else if y = y1 then some ((w - x) + w + h)
  else some ((h - y) + w + w + h)

/-- Terminal write shared by the instant branches of `fire_laser` and the
absorption case of its loop: overwrite the marked grid cell and the
origin's exit slot with the given marker (`LASER_HIT` or `LASER_REFLECT`). -/
def markEnd (s : GameState) (x y lno : Int) (marker : Nat) : GameState :=
  { s with grid := updf s.grid (flatIdx s.h x y) marker,
           exits := updf s.exits lno marker }

/-- Terminal write of the loop's reflection exit: like `markEnd` with
`LASER_REFLECT`, but the source has already executed `laserno++`. -/
def reflectEnd (s : GameState) (x y lno : Int) : GameState :=
  { markEnd s x y lno LASER_REFLECT with laserno := s.laserno + 1 }

/-- Terminal write of a pass-through ray: stamp entry and exit grid cells
with the freshly allocated ray number `s.laserno`, pair the two exit-table
slots symmetrically, and advance the counter. -/
def throughEnd (s : GameState) (xs ys lno ex ey exitno : Int) : GameState :=
  { s with
    grid := updf (updf s.grid (flatIdx s.h xs ys) s.laserno.toNat)
                 (flatIdx s.h ex ey) s.laserno.toNat,
    exits := updf (updf s.exits lno exitno.toNat) exitno lno.toNat,
    laserno := s.laserno + 1 }

/-- The `while (1)` loop of `fire_laser`, with explicit fuel; `none` means
the C program aborted on an assert or the loop did not terminate within
the fuel.  The state `s` is only read during the loop and written at the
end, exactly as in the source.  The source calls `grid2range` twice on the
same coordinates (once discarded into `unused`, once into `exitno` inside
an assert); as the function is pure in `w`, `h`, `x`, `y`, the single
match binds the shared result. -/
def fireLaserLoop (s : GameState) (xstart ystart lno : Int) :
    Nat → Int → Int → Nat → Option GameState
  | 0, _, _, _ => none
  | fuel + 1, x, y, direction =>
    match grid2range s.w s.h x y with
    | some exitno =>
      if x = xstart ∧ y = ystart then
        some (reflectEnd s x y lno)
      else
        some (throughEnd s xstart ystart lno x y exitno)
    | none =>
      if GRID s x y &&& BALL_CORRECT ≠ 0 then none
      else if isball s x y direction Look.forward then
        some (markEnd s xstart ystart lno LASER_HIT)
      else if isball s x y direction Look.left then
        fireLaserLoop s xstart ystart lno fuel x y ((direction + 1) % 4)
      else if isball s x y direction Look.right then
        fireLaserLoop s xstart ystart lno fuel x y ((direction + 3) % 4)
      else
        let p := offsetPt x y (direction : Int)
        fireLaserLoop s xstart ystart lno fuel p.1 p.2 direction

/-- `fire_laser` of src/blackbox.c.  The entry assert
`assert(grid2range(state, x, y, &lno))` becomes the initial match;
instant hit is checked before instant reflection, as in the source. -/
def fire_laser (fuel : Nat) (s : GameState) (x y : Int) (direction : Nat) :
    Option GameState :=
  match grid2range s.w s.h x y with
  | none => none
  | some lno =>
    if isball s x y direction Look.forward then
      some (markEnd s x y lno LASER_HIT)
    else if isball s x y direction Look.left ∨ isball s x y direction Look.right then
      some (markEnd s x y lno LASER_REFLECT)
    else
      let p := offsetPt x y (direction : Int)
      fireLaserLoop s x y lno fuel p.1 p.2 direction

/-- The index list `0, 1, ..., n-1` of a C `for` loop, as `Int`s. -/
def idxList (n : Int) : List Int := (List.range n.toNat).map Int.ofNat

/-- The arena traversal order of the `for (x = 1; x <= w; ...) for (y = 1;
y <= h; ...)` loops of `check_guesses`. -/
def arenaCells (w h : Int) : List (Int × Int) :=
  (idxList w).flatMap (fun xi => (idxList h).map (fun yi => (xi + 1, yi + 1)))

/-- The laser-clearing loop of `check_guesses`: for each laser index, zero
the perimeter grid cell given by `range2grid` and reset its exit slot;
the source asserts that `range2grid` succeeds. -/
def clearLasersAux : GameState → List Int → Option GameState
  | s, [] => some s
  | s, i :: rest =>
    match range2grid s.w s.h i with
    | none => none
    | some (x, y, _) =>
      clearLasersAux
        { s with grid := updf s.grid (flatIdx s.h x y) 0,
                 exits := updf s.exits i LASER_EMPTY } rest

/-- One cell of the guess-promotion loop of `check_guesses`:
`GRID &= ~BALL_CORRECT; if (GRID & BALL_GUESS) GRID |= BALL_CORRECT;`
condensed into a single write of the same final value. -/
def promoteCell (g : Int → Nat) (t : Int) : Int → Nat :=
  let v := andNot (g t) BALL_CORRECT
  updf g t (if v &&& BALL_GUESS ≠ 0 then v ||| BALL_CORRECT else v)

/-- The guess-promotion double loop of `check_guesses` applied to a state. -/
def promoteGrid (s : GameState) : GameState :=
  let g := (arenaCells s.w s.h).foldl (fun g c => promoteCell g (flatIdx s.h c.1 c.2)) s.grid
  { s with grid := g }

/-- The firing loop of `check_guesses`: for each laser index, fire it on
both snapshots if its exit slot is still empty.  The source asserts that
`range2grid` succeeds, and both snapshots are fired from the coordinates
computed on the first. -/
def fireAllAux (fuel : Nat) : GameState → GameState → List Int → Option (GameState × GameState)
  | s1, s2, [] => some (s1, s2)
  | s1, s2, i :: rest =>
    match range2grid s1.w s1.h i with
    | none => none
    | some (x, y, dir) =>
      match (if s1.exits i = LASER_EMPTY then fire_laser fuel s1 x y dir else some s1) with
      | none => none
      | some s1a =>
        match (if s2.exits i = LASER_EMPTY then fire_laser fuel s2 x y dir else some s2) with
        | none => none
        | some s2a => fireAllAux fuel s1a s2a rest

/-- The comparison loop of `check_guesses`: compare the two fired exit
tables slot by slot; on a mismatch patch the original state (copying the
solution's result, synthesising an omitted ray, or tagging the player's
shot wrong) and clear the consistency flag. -/
def comparePatchAux (sol gue : GameState) : GameState → Nat → List Int → Option (GameState × Nat)
  | st, ret, [] => some (st, ret)
  | st, ret, i :: rest =>
    match range2grid sol.w sol.h i with
    | none => none
    | some (x, y, _) =>
      if sol.exits i ≠ gue.exits i then
        match
          (if st.exits i = LASER_EMPTY then
            let e := sol.exits i
            if e = LASER_REFLECT ∨ e = LASER_HIT then
              some { st with grid := updf st.grid (flatIdx st.h x y) e,
                             exits := updf st.exits i (e ||| LASER_OMITTED) }
            else
              match range2grid st.w st.h (Int.ofNat e) with
              | none => none
              | some (ex, ey, _) =>
                some { st with
                  grid := updf (updf st.grid (flatIdx st.h x y) st.laserno.toNat)
                               (flatIdx st.h ex ey) st.laserno.toNat,
                  exits := updf st.exits i (e ||| LASER_OMITTED),
                  laserno := st.laserno + 1 }
          else
            some { st with exits := updf st.exits i (st.exits i ||| LASER_WRONG) }) with
        | none => none
        | some st1 => comparePatchAux sol gue st1 0 rest
      else comparePatchAux sol gue st ret rest

/-- One cell of the fix-up loop of `check_guesses` (run only when the
layouts proved consistent): make `BALL_CORRECT` agree with `BALL_GUESS`. -/
def fixupCell (g : Int → Nat) (t : Int) : Int → Nat :=
  if g t &&& BALL_GUESS ≠ 0 then updf g t (g t ||| BALL_CORRECT)
  else updf g t (andNot (g t) BALL_CORRECT)

/-- The fix-up double loop of `check_guesses` applied to a state. -/
def fixupGrid (s : GameState) : GameState :=
  let g := (arenaCells s.w s.h).foldl (fun g c => fixupCell g (flatIdx s.h c.1 c.2)) s.grid
  { s with grid := g }

/-- One cell of the counting loop of `check_guesses`: classify the
two-bit field `GRID & (BALL_GUESS | BALL_CORRECT)`. -/
def countStep (g : Int → Nat) (acc : Nat × Nat × Nat) (t : Int) : Nat × Nat × Nat :=
  let bs := g t &&& (BALL_GUESS ||| BALL_CORRECT)
  if bs = BALL_GUESS ||| BALL_CORRECT then (acc.1 + 1, acc.2.1, acc.2.2)
  else if bs = BALL_GUESS then (acc.1, acc.2.1 + 1, acc.2.2)
  else if bs = BALL_CORRECT then (acc.1, acc.2.1, acc.2.2 + 1)
  else acc

/-- The counting loop of `check_guesses`: recompute `nright`, `nwrong`,
`nmissed` from zero over all arena cells. -/
def countsOf (s : GameState) : GameState :=
  let acc := (arenaCells s.w s.h).foldl (fun a c => countStep s.grid a (flatIdx s.h c.1 c.2)) (0, 0, 0)
  { s with nright := acc.1, nwrong := acc.2.1, nmissed := acc.2.2 }

/-- `check_guesses` of src/blackbox.c: duplicate the state, clear the
lasers of the solution copy, build the guess copy by promoting guessed
balls, fire every unfired laser on both copies, compare the exit tables
(patching the original state on mismatches), fix up the true balls when
consistent, and recompute the three summary counts.  Returns the
consistency flag together with the updated state; `none` is an aborted
assert (or exhausted ray fuel). -/
def check_guesses (fuel : Nat) (state : GameState) : Option (Nat × GameState) :=
  match clearLasersAux state (idxList state.nlasers) with
  | none => none
  | some solution =>
    let guesses := promoteGrid solution
    match fireAllAux fuel solution guesses (idxList solution.nlasers) with
    | none => none
    | some (sol2, gue2) =>
      match comparePatchAux sol2 gue2 state 1 (idxList sol2.nlasers) with
      | none => none
      | some (st, ret) =>
        let st2 := if ret = 1 then fixupGrid st else st
        some (ret, countsOf st2)

/-- The parsed move vocabulary consumed by `execute_move`: `solve` is the
"S" string, the others are the symbolic commands with their `sscanf`-parsed
integer arguments (`-1` when a conversion failed), and `badSyntax` stands
for any string matching no case of the switch. -/
inductive Move
  | solve
  | toggleBall (x y : Int)
  | fire (i : Int)
  | reveal
  | lockBall (x y : Int)
  | lockCol (x : Int)
  | lockRow (y : Int)
  | badSyntax
deriving DecidableEq

/-- The `COUNTLOCK` loop: count the locked cells among `cells`. -/
def lockCount (s : GameState) (cells : List (Int × Int)) : Int :=
  cells.foldl (fun n c => if GRID s c.1 c.2 &&& BALL_LOCK ≠ 0 then n + 1 else n) 0

/-- The `SETLOCKIF(c)` loop: if more than `c` of the counted cells were
locked, unlock every cell of `cells`, otherwise lock them all. -/
def lockCells (s : GameState) (cells : List (Int × Int)) (lcount c : Int) : GameState :=
  let g := cells.foldl (fun g cell =>
    let t := flatIdx s.h cell.1 cell.2
    if lcount > c then updf g t (andNot (g t) BALL_LOCK)
    else updf g t (g t ||| BALL_LOCK)) s.grid
  { s with grid := g }

/-- Cells of column `gx`, in the loop order `gy = 1 .. h`. -/
def colCells (s : GameState) (gx : Int) : List (Int × Int) :=
  (idxList s.h).map (fun k => (gx, k + 1))

/-- Cells of row `gy`, in the loop order `gx = 1 .. w`. -/
def rowCells (s : GameState) (gy : Int) : List (Int × Int) :=
  (idxList s.w).map (fun k => (k + 1, gy))

/-- The guess-clearing branch of the 'T' case of `execute_move`:
`ret->nguesses--; GRID(ret, gx, gy) &= ~BALL_GUESS;`. -/
def toggleBallClear (s : GameState) (gx gy : Int) : GameState :=
  { s with nguesses := s.nguesses - 1,
           grid := updf s.grid (flatIdx s.h gx gy) (andNot (GRID s gx gy) BALL_GUESS) }

/-- The guess-setting branch of the 'T' case of `execute_move`:
`ret->nguesses++; GRID(ret, gx, gy) |= BALL_GUESS;`. -/
def toggleBallSet (s : GameState) (gx gy : Int) : GameState :=
  { s with nguesses := s.nguesses + 1,
           grid := updf s.grid (flatIdx s.h gx gy) (GRID s gx gy ||| BALL_GUESS) }

/-- The per-command body of `execute_move` (everything after the reveal
gate).  The `solve` case is handled before the gate and never reaches this
function. -/
def execMoveCases (fuel : Nat) (s : GameState) : Move → Option GameState
  | Move.solve => none
  | Move.toggleBall gx gy =>
    if gx < 1 ∨ gy < 1 ∨ gx > s.w ∨ gy > s.h then none
    else if GRID s gx gy &&& BALL_GUESS ≠ 0 then some (toggleBallClear s gx gy)
    else some (toggleBallSet s gx gy)
  | Move.fire rangeno =>
    if s.exits rangeno ≠ LASER_EMPTY then none
    else
      match range2grid s.w s.h rangeno with
      | none => none
      | some (gx, gy, direction) => fire_laser fuel s gx gy direction
  | Move.reveal =>
    if s.nguesses < s.minballs ∨ s.nguesses > s.maxballs then none
    else
      match check_guesses fuel s with
      | none => none
      | some (_, s1) => some { s1 with reveal := 1 }
  | Move.lockBall gx gy =>
    if gx < 1 ∨ gy < 1 ∨ gx > s.w ∨ gy > s.h then none
    else some { s with grid := updf s.grid (flatIdx s.h gx gy) (GRID s gx gy ^^^ BALL_LOCK) }
  | Move.lockCol gx =>
    if gx < 1 ∨ gx > s.w then none
    else some (lockCells s (colCells s gx) (lockCount s (colCells s gx)) (Int.tdiv s.h 2))
  | Move.lockRow gy =>
    if gy < 1 ∨ gy > s.h then none
    else some (lockCells s (rowCells s gy) (lockCount s (rowCells s gy)) (Int.tdiv s.w 2))
  | Move.badSyntax => none

/-- `execute_move` of src/blackbox.c on a parsed move.  The C function
works on `ret = dup_game(from)` and either returns it or frees it and
returns NULL; in the embedding the duplicate is the value itself and NULL
is `none`.  The "S" comparison precedes the reveal gate, as in the source. -/
def execute_move (fuel : Nat) (s : GameState) (m : Move) : Option GameState :=
  match m with
  | Move.solve => some { s with reveal := 1 }
  | _ =>
    if s.reveal ≠ 0 then none
    else execMoveCases fuel s m

/-- A game state as `new_game` builds it from width, height, the ball
parameters and the decoded 0-indexed ball coordinates: every counter is
zeroed, `laserno` starts at 1, every exit slot is `LASER_EMPTY`, and each
listed ball sets `BALL_CORRECT` at grid cell `(x+1, y+1)`. -/
def mkGame (w h minb maxb : Int) (balls : List (Int × Int)) : GameState :=
  { w := w, h := h, minballs := minb, maxballs := maxb,
    nballs := balls.length, nlasers := 2 * (w + h),
    grid := balls.foldl (fun g b => updf g (flatIdx h (b.1 + 1) (b.2 + 1)) BALL_CORRECT)
      (fun _ => 0),
    exits := fun _ => LASER_EMPTY,
    done := 0, laserno := 1, nguesses := 0, reveal := 0,
    nright := 0, nwrong := 0, nmissed := 0 }

/-- A fresh 2x2 game with no balls. -/
def gameEmpty : GameState := mkGame 2 2 0 0 []

/-- A fresh 2x2 game with one true ball at arena cell (1,1). -/
def gameBall : GameState := mkGame 2 2 1 1 [(0, 0)]

/-- `gameBall` after the player revealed. -/
def gameRevealed : GameState := { gameBall with reveal := 1 }

/-- `gameBall` with arena cell (1,1) additionally `BALL_LOCK`ed. -/
def gameLocked : GameState :=
  { gameBall with grid := updf gameBall.grid (flatIdx 2 1 1) (BALL_CORRECT ||| BALL_LOCK) }

/-- A 3x2 game (w=3, h=2) whose bottom perimeter cell (1,3) carries the
ray marker 1, as a completed pass-through ray would leave it. -/
def game32marked : GameState :=
  { mkGame 3 2 0 0 [] with grid := updf (fun _ => 0) (flatIdx 2 1 3) 1 }

/-- A 3x2 game (w=3, h=2) with one true ball at arena cell (3,1). -/
def game32ball : GameState := mkGame 3 2 0 0 [(2, 0)]

/-- A 3x3 game with true balls at arena cells (1,1) and (2,2) and guessed
balls at (1,1) and (3,3): one right, one wrong, one missed. -/
def gameMixed : GameState :=
  { mkGame 3 3 2 2 [(0, 0), (1, 1)] with
    nguesses := 2,
    grid := updf (updf (mkGame 3 3 2 2 [(0, 0), (1, 1)]).grid (flatIdx 3 1 1)
        (BALL_CORRECT ||| BALL_GUESS))
      (flatIdx 3 3 3) BALL_GUESS }

/-! ### Helper lemmas: function updates and bit operations -/

/-- Reading back a write. -/
theorem updf_same (g : Int → Nat) (t : Int) (v : Nat) : updf g t v t = v := by
  simp [updf]

/-- Bit description of `andNot`. -/
theorem testBit_andNot (v m i : Nat) :
    (andNot v m).testBit i = (v.testBit i && !(m.testBit i)) := by
  simp only [andNot, Nat.testBit_xor, Nat.testBit_and]
  cases v.testBit i <;> cases m.testBit i <;> rfl

/-- A single-bit mask test is a `testBit`. -/
theorem and_two_pow_ne_zero (v k : Nat) : (v &&& 2 ^ k ≠ 0) ↔ v.testBit k = true := by
  rw [Nat.and_two_pow]
  cases h : v.testBit k <;> simp

/-- `BALL_CORRECT` tests bit 0. -/
theorem and_correct_ne (v : Nat) : (v &&& BALL_CORRECT ≠ 0) ↔ v.testBit 0 = true := by
  have h := and_two_pow_ne_zero v 0
  simp only [pow_zero] at h
  exact h

/-- `BALL_GUESS` tests bit 1. -/
theorem and_guess_ne (v : Nat) : (v &&& BALL_GUESS ≠ 0) ↔ v.testBit 1 = true := by
  have h := and_two_pow_ne_zero v 1
  simpa [BALL_GUESS] using h

/-- The two-bit field `v &&& 3` decomposed by its bits. -/
theorem and_three (v : Nat) :
    v &&& 3 = (if v.testBit 0 then 1 else 0) + (if v.testBit 1 then 2 else 0) := by
  apply Nat.eq_of_testBit_eq
  intro i
  have hle : (if v.testBit 0 then 1 else 0) + (if v.testBit 1 then 2 else 0) ≤ 3 := by
    cases v.testBit 0 <;> cases v.testBit 1 <;> simp
  match i with
  | 0 =>
    rw [Nat.testBit_and]
    cases h0 : v.testBit 0 <;> cases h1 : v.testBit 1 <;> simp [h0, h1]
  | 1 =>
    rw [Nat.testBit_and]
    cases h0 : v.testBit 0 <;> cases h1 : v.testBit 1 <;> decide
  | (i + 2) =>
    have hpow : (4:Nat) ≤ 2 ^ (i + 2) := by
      have : (2:Nat) ^ 2 ≤ 2 ^ (i + 2) := Nat.pow_le_pow_right (by norm_num) (by omega)
      simpa using this
    rw [Nat.testBit_and]
    have hl : Nat.testBit 3 (i + 2) = false := Nat.testBit_lt_two_pow (by omega)
    have hr : Nat.testBit ((if v.testBit 0 then 1 else 0) + (if v.testBit 1 then 2 else 0)) (i + 2) = false :=
      Nat.testBit_lt_two_pow (by omega)
    rw [hl, hr]
    simp

/-- C2: the claim asserts `grid2range (range2grid i) = i` for every valid
perimeter index on every accepted grid size, including `w ≠ h`.  On the
3-wide, 2-high grid the first right-hand-side index 3 maps to perimeter
cell (4,1), but `grid2range` rejects that cell (its outside-grid test
compares x against h+1 = 3), so the round trip fails — and with it the
source's own `assert(grid2range(state, x, y, &lno))` in `fire_laser`. -/
theorem C2_roundtrip_fails_nonsquare :
    range2grid 3 2 3 = some (4, 1, DIR_LEFT) ∧ grid2range 3 2 4 1 = none := by
  decide

/-! ### C3: probes onto the perimeter -/

/-- C3: the claim asserts that a probe landing outside the arena always
reports "no ball".  On the 3-wide, 2-high grid, probing forward from
(1,2) facing down lands on the bottom perimeter cell (1,3) — outside the
arena since 3 > h — yet `isball` reports a ball there once the cell holds
ray marker 1 (which has the `BALL_CORRECT` bit set), because the source's
bounds test compares the probe's x against h and its y against w. -/
theorem C3_isball_sees_perimeter_marker :
    (offsetPt 1 2 (DIR_DOWN : Int) = (1, 3) ∧ ((3:Int) > game32marked.h)) ∧
    isball game32marked 1 2 DIR_DOWN Look.forward = true := by
  decide

/-! ### C4: origin rules of the ray tracer -/

/-- C4 fails on the code for accepted non-square grids: the claim's
conditions are about a true ball in the first arena cell ahead of the
firing position (or on its front-left/front-right diagonal), but the
origin rules test those cells through `isball`, whose bounds check swaps
w and h.  On the 3-wide, 2-high grid `game32ball` (true ball at arena
cell (3,1), a cell with x = 3 > h = 2 that the swapped test filters
out):
firing from entry (3,0) facing down has the ball directly ahead — the
step ahead is (3,1), an in-range arena cell carrying `BALL_CORRECT` —
yet instead of marking `Hit` the ray enters the arena and the program
aborts on the loop's own `assert(!(GRID(state,x,y) & BALL_CORRECT))`
(the result is `none`, i.e. `isSome = false`); and
firing from entry (2,0) facing down has the ball on the front-left
diagonal of the first cell (2,1) — one step ahead is (2,1) and the
front-left of that step is (3,1) — yet instead of marking `Reflected`
the ray completes as an ordinary pass-through pairing slots 1 and 6. -/
theorem C4_origin_rules_fail_nonsquare :
    (offsetPt 3 0 (DIR_DOWN : Int) = (3, 1) ∧
     (1 ≤ (3:Int) ∧ (3:Int) ≤ game32ball.w ∧ 1 ≤ (1:Int) ∧ (1:Int) ≤ game32ball.h) ∧
     GRID game32ball 3 1 &&& BALL_CORRECT ≠ 0 ∧
     (fire_laser 20 game32ball 3 0 DIR_DOWN).isSome = false) ∧
    (offsetPt 2 0 (DIR_DOWN : Int) = (2, 1) ∧
     offsetPt 2 1 ((DIR_DOWN : Int) - 1) = (3, 1) ∧
     (fire_laser 20 game32ball 2 0 DIR_DOWN).map
        (fun t => (t.exits 1, t.exits 6)) = some (6, 1)) := by
  decide

/-! ### C7: the Revealed state is terminal -/

/-- C7: once `reveal` is set, `execute_move` rejects every command of the
move vocabulary (the solve string "S" is not part of the vocabulary);
rejection returns NULL, leaving the caller's state untouched. -/
theorem C7_revealed_rejects_all_moves (fuel : Nat) (s : GameState) (m : Move)
    (hrev : s.reveal ≠ 0) (hm : m ≠ Move.solve) :
    execute_move fuel s m = none := by
  cases m <;> simp [execute_move, hrev] at hm ⊢

/-- Witness for C7: a toggle attempted on a revealed game is rejected. -/
theorem C7_revealed_rejects_all_moves_witness :
    execute_move 3 gameRevealed (Move.toggleBall 1 1) = none :=
  C7_revealed_rejects_all_moves 3 gameRevealed (Move.toggleBall 1 1) (by decide) (by decide)

/-! ### C8: ToggleBall and locked cells -/

/-- A single-bit mask test that fails is a cleared `testBit`. -/
theorem and_mask_eq_zero_iff (v k : Nat) : v &&& 2 ^ k = 0 ↔ v.testBit k = false := by
  rw [Nat.and_two_pow]
  cases h : v.testBit k <;> simp [h]

/-- Clearing `BALL_GUESS` clears exactly that flag. -/
theorem guess_of_andNot_guess (v : Nat) : andNot v BALL_GUESS &&& BALL_GUESS = 0 := by
  show andNot v BALL_GUESS &&& 2 ^ 1 = 0
  apply (and_mask_eq_zero_iff _ 1).mpr
  rw [testBit_andNot]
  simp [show Nat.testBit BALL_GUESS 1 = true by decide]

/-- Setting `BALL_GUESS` sets exactly that flag. -/
theorem guess_of_or_guess (v : Nat) : (v ||| BALL_GUESS) &&& BALL_GUESS = BALL_GUESS := by
  show (v ||| BALL_GUESS) &&& 2 ^ 1 = BALL_GUESS
  rw [Nat.and_two_pow, Nat.testBit_or]
  simp [show Nat.testBit 2 1 = true by decide, BALL_GUESS]

/-- Clearing `BALL_GUESS` leaves `BALL_LOCK` alone. -/
theorem lock_of_andNot_guess (v : Nat) : andNot v BALL_GUESS &&& BALL_LOCK = v &&& BALL_LOCK := by
  show andNot v BALL_GUESS &&& 2 ^ 2 = v &&& 2 ^ 2
  rw [Nat.and_two_pow, Nat.and_two_pow, testBit_andNot]
  simp [show Nat.testBit BALL_GUESS 2 = false by decide]

/-- Setting `BALL_GUESS` leaves `BALL_LOCK` alone. -/
theorem lock_of_or_guess (v : Nat) : (v ||| BALL_GUESS) &&& BALL_LOCK = v &&& BALL_LOCK := by
  show (v ||| BALL_GUESS) &&& 2 ^ 2 = v &&& 2 ^ 2
  rw [Nat.and_two_pow, Nat.and_two_pow, Nat.testBit_or]
  simp [show Nat.testBit BALL_GUESS 2 = false by decide]

/-- Reading back the toggled cell after the clearing branch. -/
theorem GRID_toggleBallClear (s : GameState) (gx gy : Int) :
    GRID (toggleBallClear s gx gy) gx gy = andNot (GRID s gx gy) BALL_GUESS := by
  unfold toggleBallClear GRID
  exact updf_same _ _ _

/-- Reading back the toggled cell after the setting branch. -/
theorem GRID_toggleBallSet (s : GameState) (gx gy : Int) :
    GRID (toggleBallSet s gx gy) gx gy = GRID s gx gy ||| BALL_GUESS := by
  unfold toggleBallSet GRID
  exact updf_same _ _ _

/-- C8 counterexample: arena cell (1,1) of `gameLocked` is `Locked`, yet
`execute_move` accepts `ToggleBall(1,1)` — the result is a state (not a
rejection) whose cell now carries `BALL_GUESS` and whose guess counter
moved to 1.  The lock test the claim describes lives in `interpret_move`,
the excluded input-interpretation layer, not in `execute_move`. -/
theorem C8_locked_toggle_accepted :
    (GRID gameLocked 1 1 &&& BALL_LOCK ≠ 0 ∧ gameLocked.reveal = 0) ∧
    (execute_move 3 gameLocked (Move.toggleBall 1 1)).map
      (fun t => (GRID t 1 1, t.nguesses)) = some (7, 1) := by
  decide

/-- C8 amended: in the Guessing phase, for any in-range arena cell —
locked or not — `ToggleBall` succeeds, flips the cell's `BALL_GUESS`
flag, leaves its `BALL_LOCK` flag unchanged, and moves the running guess
count by exactly one (down when clearing, up when setting). -/
theorem C8_toggle_ball_ignores_lock (fuel : Nat) (s : GameState) (x y : Int)
    (hrev : s.reveal = 0) (hx1 : 1 ≤ x) (hxw : x ≤ s.w) (hy1 : 1 ≤ y) (hyh : y ≤ s.h) :
    ∃ t, execute_move fuel s (Move.toggleBall x y) = some t ∧
      ((GRID t x y &&& BALL_GUESS ≠ 0) ↔ ¬(GRID s x y &&& BALL_GUESS ≠ 0)) ∧
      ((GRID t x y &&& BALL_LOCK ≠ 0) ↔ (GRID s x y &&& BALL_LOCK ≠ 0)) ∧
      (if GRID s x y &&& BALL_GUESS ≠ 0 then t.nguesses = s.nguesses - 1
       else t.nguesses = s.nguesses + 1) := by
  have hbounds : ¬(x < 1 ∨ y < 1 ∨ x > s.w ∨ y > s.h) := by omega
  have hrun : execute_move fuel s (Move.toggleBall x y) =
      (if GRID s x y &&& BALL_GUESS ≠ 0 then some (toggleBallClear s x y)
       else some (toggleBallSet s x y)) := by
    simp only [execute_move, execMoveCases, hrev, if_neg hbounds]
    norm_num
  by_cases hg : GRID s x y &&& BALL_GUESS ≠ 0
  · rw [hrun, if_pos hg]
    refine ⟨_, rfl, ?_, ?_, ?_⟩
    · rw [GRID_toggleBallClear, guess_of_andNot_guess]
      simp [hg]
    · rw [GRID_toggleBallClear, lock_of_andNot_guess]
    · rw [if_pos hg]
      rfl
  · rw [hrun, if_neg hg]
    have hg0 : GRID s x y &&& BALL_GUESS = 0 := by
      by_contra hc
      exact hg hc
    refine ⟨_, rfl, ?_, ?_, ?_⟩
    · rw [GRID_toggleBallSet, guess_of_or_guess]
      simp [hg0, show BALL_GUESS ≠ 0 by decide]
    · rw [GRID_toggleBallSet, lock_of_or_guess]
    · rw [if_neg hg]
      rfl

/-- Witness for C8's amended statement, at the locked concrete cell. -/
theorem C8_toggle_ball_ignores_lock_witness :
    ∃ t, execute_move 3 gameLocked (Move.toggleBall 1 1) = some t ∧
      ((GRID t 1 1 &&& BALL_GUESS ≠ 0) ↔ ¬(GRID gameLocked 1 1 &&& BALL_GUESS ≠ 0)) ∧
      ((GRID t 1 1 &&& BALL_LOCK ≠ 0) ↔ (GRID gameLocked 1 1 &&& BALL_LOCK ≠ 0)) ∧
      (if GRID gameLocked 1 1 &&& BALL_GUESS ≠ 0 then t.nguesses = gameLocked.nguesses - 1
       else t.nguesses = gameLocked.nguesses + 1) :=
  C8_toggle_ball_ignores_lock 3 gameLocked 1 1 (by decide) (by decide) (by decide)
    (by decide) (by decide)

/-! ### C9: out-of-range Fire indexes -/

/-- The perimeter mapper rejects every index outside `[0, 2(w+h))`. -/
theorem range2grid_none_of_out (w h i : Int) (hw : 0 ≤ w) (hh : 0 ≤ h)
    (hout : i < 0 ∨ 2 * (w + h) ≤ i) : range2grid w h i = none := by
  unfold range2grid
  split_ifs <;> first | rfl | omega

/-- C9 behavioural part: a `Fire` whose perimeter index is out of range —
including the -1 produced when `sscanf` fails to parse the move text —
is rejected with no resulting state, whatever value the (out-of-bounds)
exit-table read observes.  The embedding models the exit table as a total
function, so the quantification over states covers every junk value the
stray read could return; the memory-safety half of the claim fails on the
source, see RESULTS. -/
theorem C9_fire_out_of_range_rejected (fuel : Nat) (s : GameState) (i : Int)
    (hw : 0 ≤ s.w) (hh : 0 ≤ s.h)
    (hout : i < 0 ∨ 2 * (s.w + s.h) ≤ i) :
    execute_move fuel s (Move.fire i) = none := by
  unfold execute_move
  by_cases hrev : s.reveal ≠ 0
  · simp [hrev]
  · simp only [hrev, if_false]
    simp only [execMoveCases]
    by_cases hex : s.exits i ≠ LASER_EMPTY
    · rw [if_pos hex]
    · rw [if_neg hex, range2grid_none_of_out s.w s.h i hw hh hout]

/-- Witness for C9: index 16 on a 2x2 game (8 perimeter slots) is
rejected, as is the index -1 left behind by a failed parse. -/
theorem C9_fire_out_of_range_rejected_witness :
    execute_move 3 (mkGame 2 2 1 1 []) (Move.fire 16) = none :=
  C9_fire_out_of_range_rejected 3 (mkGame 2 2 1 1 []) 16 (by decide) (by decide)
    (by decide)

/-! ### C5: rays that reach the perimeter again -/

/-- Shape of every completed run of the `fire_laser` loop: the state `s`
is only read until the ray terminates, so a completed loop ends in exactly
one of the three terminal writes — absorption (`LASER_HIT` at the origin),
reflection (exit cell equals the entry cell), or a pass-through exiting at
a different, `grid2range`-valid perimeter cell. -/
theorem fireLaserLoop_shape (s : GameState) (xs ys lno : Int) :
    ∀ (fuel : Nat) (x y : Int) (direction : Nat) (s' : GameState),
      fireLaserLoop s xs ys lno fuel x y direction = some s' →
      s' = markEnd s xs ys lno LASER_HIT ∨
      s' = reflectEnd s xs ys lno ∨
      (∃ ex ey exitno, grid2range s.w s.h ex ey = some exitno ∧ ¬(ex = xs ∧ ey = ys) ∧
        s' = throughEnd s xs ys lno ex ey exitno) := by
  intro fuel
  induction fuel with
  | zero =>
    intro x y d s' h
    simp [fireLaserLoop] at h
  | succ n ih =>
    intro x y d s' h
    rw [fireLaserLoop] at h
    split at h
    · rename_i exitno heq
      by_cases hxy : x = xs ∧ y = ys
      · rw [if_pos hxy] at h
        obtain ⟨hx, hy⟩ := hxy
        subst hx
        subst hy
        right
        left
        exact (Option.some_injective _ h).symm ▸ rfl
      · rw [if_neg hxy] at h
        right
        right
        exact ⟨x, y, exitno, heq, hxy, (Option.some_injective _ h).symm⟩
    · by_cases hball : GRID s x y &&& BALL_CORRECT ≠ 0
      · rw [if_pos hball] at h
        exact absurd h (by simp)
      · rw [if_neg hball] at h
        by_cases hf : isball s x y d Look.forward
        · rw [if_pos hf] at h
          left
          exact (Option.some_injective _ h).symm
        · rw [if_neg hf] at h
          by_cases hl : isball s x y d Look.left
          · rw [if_pos hl] at h
            exact ih x y ((d + 1) % 4) s' h
          · rw [if_neg hl] at h
            by_cases hr : isball s x y d Look.right
            · rw [if_pos hr] at h
              exact ih x y ((d + 3) % 4) s' h
            · rw [if_neg hr] at h
              exact ih _ _ d s' h

/-- C5: a fired ray that neither hits nor reflects at its origin and whose
trace completes ends in one of the loop's three terminal writes.  When the
exit cell equals the entry cell the origin slot is `LASER_REFLECT`ed
(`reflectEnd`); when it exits elsewhere, at perimeter index `exitno`, the
exit table is paired symmetrically (slot `lno` stores `exitno` and slot
`exitno` stores `lno`) and both endpoint cells are stamped with the
freshly allocated ray number `s.laserno`, after which the counter is
incremented — so identifiers increase monotonically and are never reused
(`throughEnd`).  The `markEnd .. LASER_HIT` disjunct is the absorbed ray,
which never re-enters the perimeter and is outside the claim's scope. -/
theorem C5_exit_reflect_or_symmetric_pair (fuel : Nat) (s : GameState) (x y : Int)
    (direction : Nat) (lno : Int) (s' : GameState)
    (hrange : grid2range s.w s.h x y = some lno)
    (hf : isball s x y direction Look.forward = false)
    (hl : isball s x y direction Look.left = false)
    (hr : isball s x y direction Look.right = false)
    (hrun : fire_laser fuel s x y direction = some s') :
    s' = markEnd s x y lno LASER_HIT ∨
    s' = reflectEnd s x y lno ∨
    (∃ ex ey exitno, grid2range s.w s.h ex ey = some exitno ∧ ¬(ex = x ∧ ey = y) ∧
      s' = throughEnd s x y lno ex ey exitno) := by
  unfold fire_laser at hrun
  rw [hrange] at hrun
  dsimp only at hrun
  rw [if_neg (by simp [hf]), if_neg (by simp [hl, hr])] at hrun
  exact fireLaserLoop_shape s x y lno fuel _ _ direction s' hrun

/-- Witness for C5: on the empty 2x2 game the ray fired from the top-left
perimeter slot completes, and the theorem classifies its ending. -/
theorem C5_exit_reflect_or_symmetric_pair_witness :
    ∃ s', fire_laser 9 gameEmpty 1 0 DIR_DOWN = some s' ∧
      (s' = markEnd gameEmpty 1 0 0 LASER_HIT ∨
       s' = reflectEnd gameEmpty 1 0 0 ∨
       (∃ ex ey exitno, grid2range gameEmpty.w gameEmpty.h ex ey = some exitno ∧
         ¬(ex = 1 ∧ ey = 0) ∧ s' = throughEnd gameEmpty 1 0 0 ex ey exitno)) := by
  cases h : fire_laser 9 gameEmpty 1 0 DIR_DOWN with
  | none =>
    have hs : (fire_laser 9 gameEmpty 1 0 DIR_DOWN).isSome = true := by decide
    rw [h] at hs
    exact absurd hs (by decide)
  | some t =>
    exact ⟨t, rfl, C5_exit_reflect_or_symmetric_pair 9 gameEmpty 1 0 DIR_DOWN 0 t
      (by decide) (by decide) (by decide) (by decide) h⟩

/-! ### Stage lemmas for `check_guesses` -/

/-- The counting fold computes, for each of the three counters, the number
of visited cells whose two-bit layout field matches. -/
theorem countFold_spec (g : Int → Nat) (hh : Int) (l : List (Int × Int)) :
    ∀ acc : Nat × Nat × Nat,
      l.foldl (fun a c => countStep g a (flatIdx hh c.1 c.2)) acc =
        (acc.1 + l.countP (fun c => decide (g (flatIdx hh c.1 c.2) &&& 3 = 3)),
         acc.2.1 + l.countP (fun c => decide (g (flatIdx hh c.1 c.2) &&& 3 = 2)),
         acc.2.2 + l.countP (fun c => decide (g (flatIdx hh c.1 c.2) &&& 3 = 1))) := by
  induction l with
  | nil =>
    intro acc
    simp
  | cons c rest ih =>
    intro acc
    rw [List.foldl_cons, ih, List.countP_cons, List.countP_cons, List.countP_cons]
    unfold countStep
    rw [show BALL_GUESS ||| BALL_CORRECT = 3 by decide, show BALL_GUESS = 2 from rfl,
      show BALL_CORRECT = 1 from rfl]
    by_cases h3 : g (flatIdx hh c.1 c.2) &&& 3 = 3
    · simp only [h3, if_pos rfl]
      simp [Prod.ext_iff]
      omega
    · rw [if_neg h3]
      by_cases h2 : g (flatIdx hh c.1 c.2) &&& 3 = 2
      · rw [if_pos h2]
        simp [Prod.ext_iff, h3, h2]
        omega
      · rw [if_neg h2]
        by_cases h1 : g (flatIdx hh c.1 c.2) &&& 3 = 1
        · rw [if_pos h1]
          simp [Prod.ext_iff, h3, h2, h1]
          omega
        · rw [if_neg h1]
          simp [Prod.ext_iff, h3, h2, h1]

/-- The counting pass of `check_guesses` writes exactly the three per-cell
tallies and changes nothing else. -/
theorem countsOf_spec (s : GameState) :
    (countsOf s).nright =
      (arenaCells s.w s.h).countP (fun c => decide (GRID s c.1 c.2 &&& 3 = 3)) ∧
    (countsOf s).nwrong =
      (arenaCells s.w s.h).countP (fun c => decide (GRID s c.1 c.2 &&& 3 = 2)) ∧
    (countsOf s).nmissed =
      (arenaCells s.w s.h).countP (fun c => decide (GRID s c.1 c.2 &&& 3 = 1)) ∧
    (countsOf s).grid = s.grid ∧ (countsOf s).w = s.w ∧ (countsOf s).h = s.h := by
  unfold countsOf
  rw [countFold_spec]
  exact ⟨by simp [GRID], by simp [GRID], by simp [GRID], rfl, rfl, rfl⟩

/-! ### C1: consistency soundness -/

/-- The three values of the two-bit layout field, in claim language. -/
theorem and_three_cases (v : Nat) :
    (v &&& 3 = 3 ↔ ((v &&& BALL_GUESS ≠ 0) ∧ (v &&& BALL_CORRECT ≠ 0))) ∧
    (v &&& 3 = 2 ↔ ((v &&& BALL_GUESS ≠ 0) ∧ ¬(v &&& BALL_CORRECT ≠ 0))) ∧
    (v &&& 3 = 1 ↔ (¬(v &&& BALL_GUESS ≠ 0) ∧ (v &&& BALL_CORRECT ≠ 0))) := by
  rw [and_three, and_guess_ne, and_correct_ne]
  cases h0 : v.testBit 0 <;> cases h1 : v.testBit 1 <;> simp

/-- Every successful `check_guesses` returns a state produced by the final
counting pass. -/
theorem check_guesses_shape (fuel : Nat) (s : GameState) (r : Nat) (s1 : GameState)
    (h : check_guesses fuel s = some (r, s1)) : ∃ u, s1 = countsOf u := by
  unfold check_guesses at h
  split at h
  · exact absurd h (by simp)
  · dsimp only at h
    split at h
    · exact absurd h (by simp)
    · split at h
      · exact absurd h (by simp)
      · have hinj := Option.some_injective _ h
        exact ⟨_, ((Prod.mk.injEq _ _ _ _).mp hinj).2.symm⟩

set_option maxHeartbeats 4000000 in
/-- C6: after a completed Reveal move the three reported counts are exact
cardinalities over the arena enumeration of the final state: `nright`
counts cells both guessed and true, `nwrong` cells guessed but not true,
`nmissed` cells true but not guessed — the final state's true-ball set is
the guess set itself whenever the check reported consistent, because the
fix-up pass rewrote it.  In particular, revealing `gameMixed` (true balls
at (1,1) and (2,2), guesses at (1,1) and (3,3)) reports exactly
right = 1, wrong = 1, missed = 1. -/
theorem C6_reveal_counts_are_cardinalities :
    (∀ (fuel : Nat) (s t : GameState), execute_move fuel s Move.reveal = some t →
      t.nright = ((arenaCells t.w t.h).filter
        (fun c => decide ((GRID t c.1 c.2 &&& BALL_GUESS ≠ 0) ∧
          (GRID t c.1 c.2 &&& BALL_CORRECT ≠ 0)))).length ∧
      t.nwrong = ((arenaCells t.w t.h).filter
        (fun c => decide ((GRID t c.1 c.2 &&& BALL_GUESS ≠ 0) ∧
          ¬(GRID t c.1 c.2 &&& BALL_CORRECT ≠ 0)))).length ∧
      t.nmissed = ((arenaCells t.w t.h).filter
        (fun c => decide (¬(GRID t c.1 c.2 &&& BALL_GUESS ≠ 0) ∧
          (GRID t c.1 c.2 &&& BALL_CORRECT ≠ 0)))).length) ∧
    (execute_move 20 gameMixed Move.reveal).map (fun t => (t.nright, t.nwrong, t.nmissed)) =
      some (1, 1, 1) := by
  constructor
  · intro fuel s t hrun
    unfold execute_move at hrun
    dsimp only at hrun
    split at hrun
    · exact absurd hrun (by simp)
    · simp only [execMoveCases] at hrun
      split at hrun
      · exact absurd hrun (by simp)
      · split at hrun
        · exact absurd hrun (by simp)
        · rename_i pr r s1 hchk
          obtain ⟨u, hu⟩ := check_guesses_shape fuel s r s1 hchk
          subst hu
          have ht : t = { countsOf u with reveal := 1 } :=
            (Option.some_injective _ hrun).symm
          subst ht
          have hspec := countsOf_spec u
          refine ⟨?_, ?_, ?_⟩
          · show (countsOf u).nright = _
            rw [hspec.1, List.countP_eq_length_filter]
            congr 1
            apply List.filter_congr
            intro c hc
            rw [decide_eq_decide]
            show u.grid (flatIdx u.h c.1 c.2) &&& 3 = 3 ↔ _
            have hG : GRID { countsOf u with reveal := 1 } c.1 c.2 =
                u.grid (flatIdx u.h c.1 c.2) := by
              show (countsOf u).grid (flatIdx (countsOf u).h c.1 c.2) = _
              rw [hspec.2.2.2.1, hspec.2.2.2.2.2]
            rw [hG]
            exact (and_three_cases _).1
          · show (countsOf u).nwrong = _
            rw [hspec.2.1, List.countP_eq_length_filter]
            congr 1
            apply List.filter_congr
            intro c hc
            rw [decide_eq_decide]
            have hG : GRID { countsOf u with reveal := 1 } c.1 c.2 =
                u.grid (flatIdx u.h c.1 c.2) := by
              show (countsOf u).grid (flatIdx (countsOf u).h c.1 c.2) = _
              rw [hspec.2.2.2.1, hspec.2.2.2.2.2]
            rw [hG]
            exact (and_three_cases _).2.1
          · show (countsOf u).nmissed = _
            rw [hspec.2.2.1, List.countP_eq_length_filter]
            congr 1
            apply List.filter_congr
            intro c hc
            rw [decide_eq_decide]
            have hG : GRID { countsOf u with reveal := 1 } c.1 c.2 =
                u.grid (flatIdx u.h c.1 c.2) := by
              show (countsOf u).grid (flatIdx (countsOf u).h c.1 c.2) = _
              rw [hspec.2.2.2.1, hspec.2.2.2.2.2]
            rw [hG]
            exact (and_three_cases _).2.2
  · simp [execute_move, execMoveCases, check_guesses, clearLasersAux, fireAllAux,
      fire_laser, fireLaserLoop, isball, GRID, updf, flatIdx, offsetPt, offsets,
      range2grid, grid2range, comparePatchAux, promoteGrid, promoteCell, fixupGrid,
      fixupCell, countsOf, countStep, arenaCells, idxList, andNot, markEnd, reflectEnd,
      throughEnd, gameMixed, mkGame, BALL_CORRECT, BALL_GUESS, BALL_LOCK, LASER_EMPTY,
      LASER_HIT, LASER_REFLECT, LASER_OMITTED, LASER_WRONG, DIR_UP, DIR_DOWN, DIR_LEFT,
      DIR_RIGHT, List.range, List.range.loop]
    decide

set_option maxHeartbeats 4000000 in
/-- Witness for C6: the general cardinality statement applied to the
concrete reveal of `gameMixed`. -/
theorem C6_reveal_counts_are_cardinalities_witness :
    ∃ t, execute_move 20 gameMixed Move.reveal = some t ∧
      t.nright = ((arenaCells t.w t.h).filter
        (fun c => decide ((GRID t c.1 c.2 &&& BALL_GUESS ≠ 0) ∧
          (GRID t c.1 c.2 &&& BALL_CORRECT ≠ 0)))).length := by
  cases h : execute_move 20 gameMixed Move.reveal with
  | none =>
    have hs := C6_reveal_counts_are_cardinalities.2
    rw [h] at hs
    exact absurd hs (by simp)
  | some t =>
    exact ⟨t, rfl, (C6_reveal_counts_are_cardinalities.1 20 gameMixed t h).1⟩

end Blackbox
